import Mathlib

/-!
Verification of the Dayly wallet / payment-settlement backend (the Firebase
Cloud Functions in `src/Screens/Community/CommunityScreen.tsx`, lines 300-1051).

The embedding models the Firestore state touched by the money-moving
functions: per-user wallet balances (collection `wallets`), per-user
transaction ledgers (subcollection `wallets/{uid}/transactions`), rides,
businesses, the `drivers_live` occupancy flags and the `orders` collection.

Modelling conventions:
* Monetary amounts are rationals (JS numbers hold exact values for the
  amounts in all claims; `NaN`/`Infinity` are rejected by the functions'
  input validation and are not representable in `ℚ`).
* A Firestore document that does not exist reads as its defaults: the code
  reads a missing wallet as balance 0 (`wSnap.exists ? ... : 0`), which the
  model captures by making `wallets` a total function with default 0.
* `db.runTransaction` semantics: a body that throws commits nothing, so an
  operation is `Except Err WState`; `Except.error` means the pre-state
  persists (made explicit by `runTx`).
* `createdAt` / `updatedAt` timestamps carry no information used by any
  claim and are omitted from the documents.
-/

namespace Dayly

/-- The `HttpsError` codes thrown by the Cloud Functions. -/
inductive Err where
  | unauthenticated (msg : String)
  | invalidArgument (msg : String)
  | notFound (msg : String)
  | permissionDenied (msg : String)
  | failedPrecondition (msg : String)
  | internal (msg : String)
  deriving Repr, DecidableEq

/-- A document of `wallets/{uid}/transactions` (a ledger entry).  The
Firestore documents are heterogeneous: each writer sets a different set of
fields, so fields absent from a given entry kind are `none`. -/
structure Entry where
  type : String
  counterparty : Option String := none
  amount : Option ℚ := none
  currency : Option String := none
  note : Option String := none
  provider : Option String := none
  orderId : Option String := none
  captureId : Option String := none
  grossAmount : Option ℚ := none
  grossCurrency : Option String := none
  creditAmount : Option ℚ := none
  creditCurrency : Option String := none
  rideId : Option String := none
  platformFee : Option ℚ := none
  payoutToDriver : Option ℚ := none
  source : Option String := none
  status : String := "SUCCESS"
  deriving Repr, DecidableEq

/-- A `rides/{rideId}` document (the fields read or written by
`payDriverOnComplete`). -/
structure Ride where
  userId : String
  status : String
  paymentStatus : Option String := none
  driverId : Option String := none
  estimatedFareZAR : ℚ := 0
  deriving Repr, DecidableEq

/-- An `orders/{orderId}` document as written by `payAndPlaceOrder`. -/
structure Order where
  businessId : String
  ownerId : String
  userId : String
  items : List String
  deliveryAddress : Option String
  subtotal : ℚ
  total : ℚ
  status : String
  deriving Repr, DecidableEq

/-- The Firestore state touched by the settlement functions.  `wallets u`
is the balance of `wallets/{u}` (0 when the document does not exist);
`ledgers u` is `wallets/{u}/transactions` in chronological (write) order;
`businesses b` is the `ownerId` field of `businesses/{b}` when that
document exists. -/
structure WState where
  wallets : String → ℚ
  ledgers : String → List Entry
  rides : String → Option Ride
  businesses : String → Option String
  driversLive : String → Bool
  orders : List Order

/-- Point update of a string-indexed table (one `t.set` on a document). -/
def setF {α : Type} (f : String → α) (k : String) (v : α) : String → α :=
  fun u => if u = k then v else f u

/-- `db.runTransaction` semantics: an error thrown from the transaction
body aborts the transaction and commits nothing, so the pre-state stands. -/
def runTx (s : WState) (r : Except Err WState) : WState :=
  match r with
  | .ok s' => s'
  | .error _ => s

/-! ### transferFunds (source lines 643-669) -/

/-- The `TRANSFER_OUT` entry written to the sender's ledger. -/
def transferOutEntry (toUid : String) (amt : ℚ) (note : Option String)
    (base : String) : Entry :=
  { type := "TRANSFER_OUT", counterparty := some toUid, amount := some amt,
    currency := some base, note := note }

/-- The `TRANSFER_IN` entry written to the recipient's ledger. -/
def transferInEntry (fromUid : String) (amt : ℚ) (note : Option String)
    (base : String) : Entry :=
  { type := "TRANSFER_IN", counterparty := some fromUid, amount := some amt,
    currency := some base, note := note }

/-- `transferFunds` (P2P transfer).  Validation mirrors the source:
`!toUid || toUid === fromUid` rejects, `amount <= 0` (or non-numeric,
unrepresentable here) rejects; inside the transaction both wallets are
read first, the sender balance is checked, then both balances are set and
one entry is appended to each ledger.  `base` is `getBaseCurrency()`. -/
def transferFunds (s : WState) (fromUid toUid : String) (amount : ℚ)
    (note : Option String) (base : String) : Except Err WState :=
  if toUid = "" ∨ toUid = fromUid then
    .error (.invalidArgument "Invalid recipient")
  else if amount ≤ 0 then
    .error (.invalidArgument "amount must be > 0")
  else
    let fromBal := s.wallets fromUid
    let toBal := s.wallets toUid
    if fromBal < amount then
      .error (.failedPrecondition "Insufficient balance")
    else
      let w1 := setF s.wallets fromUid (fromBal - amount)
      let w2 := setF w1 toUid (toBal + amount)
      let l1 := setF s.ledgers fromUid
        (s.ledgers fromUid ++ [transferOutEntry toUid amount note base])
      let l2 := setF l1 toUid
        (l1 toUid ++ [transferInEntry fromUid amount note base])
      .ok { s with wallets := w2, ledgers := l2 }

/-! ### fxConvert (source lines 382-412)

The three providers are consumed as outcomes of their HTTP calls.  `tryGet`
awaits `fetch` and `res.text()` outside its `try`, so a rejected fetch
escapes `tryGet`; the calls to providers 1 (v6.exchangerate-api, used only
when `FX_API_KEY` is set) and 2 (frankfurter) are each wrapped in their own
`try/catch`, while the call to provider 3 (exchangerate.host) is not.
`resp ok v` is a response with HTTP-ok flag `ok` whose relevant JSON field
(`conversion_result` / `rates[to]` / `result`) is the number `v` when
`v = some _`.  Provider 3's `ok` flag is ignored by the source.  The second
component of the result lists the providers actually called, in order. -/

inductive ProviderOutcome where
  | throws
  | resp (ok : Bool) (value : Option ℚ)
  deriving Repr, DecidableEq

/-- JavaScript `toUpperCase` for the ASCII currency codes involved:
upper-case every character.  (`String.toUpper` is exactly
`String.map Char.toUpper`; it is restated over the character list so that
applications to literals reduce.) -/
def jsToUpper (s : String) : String := ⟨s.data.map Char.toUpper⟩

def fxConvert (amount : ℚ) (fromC toC : String) (hasFxKey : Bool)
    (p1 p2 p3 : ProviderOutcome) : Except Unit ℚ × List Nat :=
  if jsToUpper fromC = jsToUpper toC then (.ok amount, [])
  else
    let r1 : Option ℚ :=
      if hasFxKey then
        match p1 with
        | .resp true (some v) => some v
        | _ => none
      else none
    let c1 : List Nat := if hasFxKey then [1] else []
    match r1 with
    | some v => (.ok v, c1)
    | none =>
      match p2 with
      | .resp true (some v) => (.ok v, c1 ++ [2])
      | _ =>
        match p3 with
        | .throws => (.error (), c1 ++ [2, 3])
        | .resp _ (some v) => (.ok v, c1 ++ [2, 3])
        | .resp _ none => (.ok amount, c1 ++ [2, 3])

/-! ### payDriverOnComplete (source lines 674-719) -/

/-- JavaScript `Math.round`: round half toward positive infinity. -/
def jsRound (q : ℚ) : ℤ := ⌊q + 1 / 2⌋

/-- `Math.round(amount * Math.max(0, Math.min(0.95, feeRate)))` as a
rational: the platform fee charged on a ride fare. -/
def platformFeeOf (fare feeRate : ℚ) : ℚ :=
  (jsRound (fare * max 0 (min (95 / 100) feeRate)) : ℤ)

/-- The `RIDE_PAYMENT` entry written to the rider's ledger. -/
def ridePaymentEntry (rideId driverId : String) (amount fee payout : ℚ)
    (base : String) : Entry :=
  { type := "RIDE_PAYMENT", rideId := some rideId, counterparty := some driverId,
    amount := some amount, currency := some base, platformFee := some fee,
    payoutToDriver := some payout }

/-- The `RIDE_EARN` entry written to the driver's ledger. -/
def rideEarnEntry (rideId riderUid : String) (payout fee : ℚ)
    (base : String) : Entry :=
  { type := "RIDE_EARN", rideId := some rideId, counterparty := some riderUid,
    amount := some payout, currency := some base, platformFee := some fee }

/-- `payDriverOnComplete` (ride-fare settlement).  Inside the transaction:
read the ride; if `payment.status === "authorized"` or
`status === "completed"` return early (the outer function then returns
`ok`, committing nothing); then check ownership, `on_trip` status, an
assigned driver, a positive fare (`Number.isFinite` always holds in `ℚ`)
and a sufficient rider balance; debit the rider by the fare, credit the
driver with the fare minus the clamped-and-rounded platform fee, append
the `RIDE_PAYMENT` / `RIDE_EARN` entries, mark the ride completed and
authorized and free the driver in `drivers_live`.  `feeRate` is
`Number(process.env.APP_PLATFORM_FEE_RATE || "0.20")`. -/
def payDriverOnComplete (s : WState) (riderUid rideId : String)
    (feeRate : ℚ) (base : String) : Except Err WState :=
  if rideId = "" then .error (.invalidArgument "rideId required")
  else
    match s.rides rideId with
    | none => .error (.notFound "Ride not found")
    | some ride =>
      if ride.paymentStatus = some "authorized" ∨ ride.status = "completed" then
        .ok s
      else if ride.userId ≠ riderUid then
        .error (.permissionDenied "Not your ride.")
      else if ride.status ≠ "on_trip" then
        .error (.failedPrecondition "Ride must be on_trip")
      else
        match ride.driverId with
        | none => .error (.failedPrecondition "No assigned driver.")
        | some driverId =>
          let amount := ride.estimatedFareZAR
          if amount ≤ 0 then .error (.failedPrecondition "Invalid fare amount.")
          else
            let riderBal := s.wallets riderUid
            let driverBal := s.wallets driverId
            if riderBal < amount then
              .error (.failedPrecondition "Insufficient rider balance.")
            else
              let fee := platformFeeOf amount feeRate
              let payout := amount - fee
              let w1 := setF s.wallets riderUid (riderBal - amount)
              let w2 := setF w1 driverId (driverBal + payout)
              let l1 := setF s.ledgers riderUid
                (s.ledgers riderUid ++ [ridePaymentEntry rideId driverId amount fee payout base])
              let l2 := setF l1 driverId
                (l1 driverId ++ [rideEarnEntry rideId riderUid payout fee base])
              .ok { s with
                wallets := w2, ledgers := l2,
                rides := setF s.rides rideId
                  (some { ride with status := "completed",
                                    paymentStatus := some "authorized" }),
                driversLive := setF s.driversLive driverId false }

/-! ### payAndPlaceOrder (source lines 724-773) -/

/-- `payAndPlaceOrder` (marketplace order settlement).  Validation mirrors
the source (`!businessId || !Array.isArray(items) || !Number.isFinite(total)
|| total <= 0`; the array and finiteness checks always hold here).  Inside
the transaction: resolve the business owner, check the buyer balance, set
the buyer balance, increment the seller balance (`FieldValue.increment`
applies on top of the earlier write in the same commit), and write the
order document as `paid`.  The source writes NO ledger entry for either
wallet mutation. -/
def payAndPlaceOrder (s : WState) (uid businessId : String)
    (items : List String) (address : Option String) (total : ℚ)
    (base : String) : Except Err WState :=
  if businessId = "" ∨ total ≤ 0 then
    .error (.invalidArgument "Missing order fields.")
  else
    match s.businesses businessId with
    | none => .error (.notFound "Business not found.")
    | some ownerId =>
      if ownerId = "" then .error (.failedPrecondition "Business owner not set.")
      else
        let buyerBal := s.wallets uid
        if buyerBal < total then .error (.failedPrecondition "Insufficient funds.")
        else
          let w1 := setF s.wallets uid (buyerBal - total)
          let w2 := setF w1 ownerId (w1 ownerId + total)
          .ok { s with
            wallets := w2,
            orders := s.orders ++
              [{ businessId := businessId, ownerId := ownerId, userId := uid,
                 items := items, deliveryAddress := address, subtotal := total,
                 total := total, status := "paid" }] }

/-! ### capturePayPalOrder, transaction part (source lines 571-597)

The gateway calls (token, capture) happen before the transaction; when the
capture reports `COMPLETED` with gross amount `gross` in `grossCurrency`,
the code computes `credit = grossCurrency === base ? gross : await
fxConvert(gross, grossCurrency, base)` and then runs the transaction below:
it unconditionally credits the wallet and appends one `TOP_UP` entry — it
performs no lookup of existing entries by capture id. -/

/-- The `TOP_UP` entry recording a PayPal capture. -/
def topUpEntry (orderId : String) (captureId : Option String)
    (gross : ℚ) (grossCurrency : String) (credit : ℚ) (base : String) : Entry :=
  { type := "TOP_UP", provider := some "PAYPAL", orderId := some orderId,
    captureId := captureId, grossAmount := some gross,
    grossCurrency := some grossCurrency, creditAmount := some credit,
    creditCurrency := some base }

/-- The `db.runTransaction` body of `capturePayPalOrder`. -/
def captureOrderTx (s : WState) (uid orderId : String)
    (captureId : Option String) (gross : ℚ) (grossCurrency : String)
    (credit : ℚ) (base : String) : WState :=
  let prev := s.wallets uid
  { s with
    wallets := setF s.wallets uid (prev + credit),
    ledgers := setF s.ledgers uid
      (s.ledgers uid ++ [topUpEntry orderId captureId gross grossCurrency credit base]) }

/-! ### getTransactions (source lines 623-638)

The query result (`transactions` ordered by `createdAt` descending) is
modelled as the list `entries` of (document id, document) pairs in query
order. -/

/-- `Math.max(1, Math.min(50, Number(_limit ?? 20)))`. -/
def clampLimit (l : Option ℤ) : ℤ := max 1 (min 50 (l.getD 20))

/-- Firestore `startAfter(curSnap)`: the strict suffix of the ordered
query results after the cursor document. -/
def startAfterDoc {α : Type} : List (String × α) → String → List (String × α)
  | [], _ => []
  | e :: rest, c => if e.1 = c then rest else startAfterDoc rest c

/-- `getTransactions`: clamp the limit; if a cursor is supplied and that
document exists, page from just after it; return `limit` items and a
`nextCursor` that is the last returned id when a full page came back,
`null` otherwise. -/
def getTransactions {α : Type} (entries : List (String × α))
    (limitArg : Option ℤ) (cursor : Option String) :
    List (String × α) × Option String :=
  let limit := (clampLimit limitArg).toNat
  let pool :=
    match cursor with
    | none => entries
    | some c =>
      if c ∈ entries.map Prod.fst then startAfterDoc entries c else entries
  let items := pool.take limit
  let nextCursor :=
    if items.length = limit then items.getLast?.map Prod.fst else none
  (items, nextCursor)

/-! ## Theorems -/

/-- C8: for every amount and every currency code `X`, `fxConvert(amount, X, X)`
returns the amount unchanged and consults no external provider (the result is
the same for every provider outcome, and the list of providers called is
empty). -/
theorem fxConvert_identity (amount : ℚ) (x : String) (hasFxKey : Bool)
    (p1 p2 p3 : ProviderOutcome) :
    fxConvert amount x x hasFxKey p1 p2 p3 = (.ok amount, []) := by
  simp [fxConvert]

/-- The guard of `fxConvert` on two concrete distinct codes. -/
theorem usd_ne_zar : jsToUpper "USD" ≠ jsToUpper "ZAR" := by decide

/-- C7 counterexample: with no FX key configured and both free providers'
fetches rejecting, `fxConvert 50 "USD" "ZAR"` propagates the tertiary
provider's thrown error instead of returning the original amount 50: the
claim "if every provider fails or is unavailable (including by throwing),
it returns the original amount unchanged rather than raising an error" is
false. -/
theorem fxConvert_tertiary_throw_escapes :
    fxConvert 50 "USD" "ZAR" false .throws .throws .throws
      = (.error (), [2, 3]) ∧
    (fxConvert 50 "USD" "ZAR" false .throws .throws .throws).1
      ≠ .ok (50 : ℚ) := by
  constructor
  · rfl
  · simp [fxConvert, usd_ne_zar]

/-- `p` is not an accepted primary/secondary response (HTTP ok with a
numeric field). -/
def notAccepted (p : ProviderOutcome) : Prop :=
  ∀ v : ℚ, p ≠ .resp true (some v)

/-- C7 as amended: with `from ≠ to` (after upper-casing), `fxConvert`
returns the first accepted numeric result in order primary (consulted only
when an FX key is configured, and accepted only on an ok response),
secondary (accepted only on an ok response), tertiary (a numeric result is
used regardless of the HTTP status); when the primary and secondary yield
no accepted result, a tertiary response without a numeric field falls open
to the original amount, while a tertiary call that throws propagates the
error instead of returning the original amount. -/
theorem fxConvert_chain_spec (amount : ℚ) (f t : String)
    (hne : jsToUpper f ≠ jsToUpper t) :
    (∀ (v : ℚ) (p2 p3 : ProviderOutcome),
      fxConvert amount f t true (.resp true (some v)) p2 p3 = (.ok v, [1])) ∧
    (∀ (k : Bool) (p1 p3 : ProviderOutcome) (v : ℚ),
      (k = true → notAccepted p1) →
      fxConvert amount f t k p1 (.resp true (some v)) p3
        = (.ok v, (if k then [1] else []) ++ [2])) ∧
    (∀ (k : Bool) (p1 p2 : ProviderOutcome) (ok : Bool) (v : ℚ),
      (k = true → notAccepted p1) → notAccepted p2 →
      fxConvert amount f t k p1 p2 (.resp ok (some v))
        = (.ok v, (if k then [1] else []) ++ [2, 3])) ∧
    (∀ (k : Bool) (p1 p2 : ProviderOutcome) (ok : Bool),
      (k = true → notAccepted p1) → notAccepted p2 →
      fxConvert amount f t k p1 p2 (.resp ok none)
        = (.ok amount, (if k then [1] else []) ++ [2, 3])) ∧
    (∀ (k : Bool) (p1 p2 : ProviderOutcome),
      (k = true → notAccepted p1) → notAccepted p2 →
      fxConvert amount f t k p1 p2 .throws
        = (.error (), (if k then [1] else []) ++ [2, 3])) := by
  have skip1 : ∀ (k : Bool) (p1 : ProviderOutcome), (k = true → notAccepted p1) →
      (if k then match p1 with
                 | .resp true (some v) => some v
                 | _ => none
       else none) = (none : Option ℚ) := by
    intro k p1 h1
    cases k with
    | false => rfl
    | true =>
      match p1 with
      | .throws => rfl
      | .resp false v => rfl
      | .resp true none => rfl
      | .resp true (some v) => exact absurd rfl (h1 rfl v)
  have skip2 : ∀ (p2 : ProviderOutcome), notAccepted p2 →
      (p2 = .throws ∨ (∃ v, p2 = .resp false v) ∨ p2 = .resp true none) := by
    intro p2 h2
    match p2 with
    | .throws => exact Or.inl rfl
    | .resp false v => exact Or.inr (Or.inl ⟨v, rfl⟩)
    | .resp true none => exact Or.inr (Or.inr rfl)
    | .resp true (some v) => exact absurd rfl (h2 v)
  refine ⟨?_, ?_, ?_, ?_, ?_⟩
  · intro v p2 p3
    simp [fxConvert, hne]
  · intro k p1 p3 v h1
    simp only [fxConvert, if_neg hne, skip1 k p1 h1]
  · intro k p1 p2 ok v h1 h2
    simp only [fxConvert, if_neg hne, skip1 k p1 h1]
    rcases skip2 p2 h2 with h | ⟨v2, h⟩ | h <;> subst h <;> cases ok <;> rfl
  · intro k p1 p2 ok h1 h2
    simp only [fxConvert, if_neg hne, skip1 k p1 h1]
    rcases skip2 p2 h2 with h | ⟨v2, h⟩ | h <;> subst h <;> cases ok <;> rfl
  · intro k p1 p2 h1 h2
    simp only [fxConvert, if_neg hne, skip1 k p1 h1]
    rcases skip2 p2 h2 with h | ⟨v2, h⟩ | h <;> subst h <;> rfl

/-- Witness for `fxConvert_chain_spec` at concrete inputs: the guard
hypothesis holds for "USD" and "ZAR", the primary's accepted result 9 is
returned with only provider 1 called, and with the primary unavailable and
the secondary not ok, a tertiary throw yields an error. -/
theorem fxConvert_chain_spec_witness :
    jsToUpper "USD" ≠ jsToUpper "ZAR" ∧
    fxConvert 50 "USD" "ZAR" true (.resp true (some 9)) .throws .throws
      = (.ok 9, [1]) ∧
    fxConvert 50 "USD" "ZAR" false .throws (.resp false (some 7)) .throws
      = (.error (), [2, 3]) := by
  refine ⟨usd_ne_zar, ?_, ?_⟩
  · exact (fxConvert_chain_spec 50 "USD" "ZAR" usd_ne_zar).1 9 .throws .throws
  · exact (fxConvert_chain_spec 50 "USD" "ZAR" usd_ne_zar).2.2.2.2 false .throws
      (.resp false (some 7)) (fun h => by cases h) (fun v h => by cases h)

/-- C2: if the sender's balance read inside the transaction is below the
transfer amount, `transferFunds` throws `failed-precondition` ("Insufficient
balance") and the aborted transaction commits nothing: the post-state is
the unchanged pre-state. -/
theorem transferFunds_insufficient (s : WState) (fromUid toUid : String)
    (amount : ℚ) (note : Option String) (base : String)
    (hto : toUid ≠ "") (hne : toUid ≠ fromUid) (hpos : 0 < amount)
    (hbal : s.wallets fromUid < amount) :
    transferFunds s fromUid toUid amount note base
      = .error (.failedPrecondition "Insufficient balance") ∧
    runTx s (transferFunds s fromUid toUid amount note base) = s := by
  have h1 : ¬(toUid = "" ∨ toUid = fromUid) := by
    intro h; rcases h with h | h <;> [exact hto h; exact hne h]
  have h2 : ¬amount ≤ 0 := not_le.mpr hpos
  have he : transferFunds s fromUid toUid amount note base
      = .error (.failedPrecondition "Insufficient balance") := by
    simp only [transferFunds, if_neg h1, if_neg h2, if_pos hbal]
  exact ⟨he, by rw [he]; rfl⟩

/-- State for the C2 witness: alice holds 30, every other wallet 0, all
ledgers empty. -/
def c2St : WState :=
  { wallets := fun u => if u = "alice" then 30 else 0,
    ledgers := fun _ => [], rides := fun _ => none,
    businesses := fun _ => none, driversLive := fun _ => false, orders := [] }

/-- Witness for `transferFunds_insufficient`: alice (balance 30) sending 40
to bob fails with insufficient balance and leaves the state unchanged. -/
theorem transferFunds_insufficient_witness :
    ("bob" : String) ≠ "" ∧ ("bob" : String) ≠ "alice" ∧ (0 : ℚ) < 40 ∧
    c2St.wallets "alice" < 40 ∧
    (transferFunds c2St "alice" "bob" 40 none "ZAR"
        = .error (.failedPrecondition "Insufficient balance") ∧
      runTx c2St (transferFunds c2St "alice" "bob" 40 none "ZAR") = c2St) := by
  refine ⟨by decide, by decide, by decide, ?_, ?_⟩
  · show (30 : ℚ) < 40
    decide
  · exact transferFunds_insufficient c2St "alice" "bob" 40 none "ZAR"
      (by decide) (by decide) (by decide) (by show (30 : ℚ) < 40; decide)

/-- C4: a valid transfer (recipient nonempty and distinct, positive amount
within the sender's balance) commits atomically: the sender's balance drops
by the amount, the recipient's rises by the amount, exactly one
`TRANSFER_OUT` entry is appended to the sender's ledger and exactly one
`TRANSFER_IN` entry to the recipient's ledger, and no other wallet or
ledger is touched. -/
theorem transferFunds_ok (s : WState) (fromUid toUid : String)
    (amount : ℚ) (note : Option String) (base : String)
    (hto : toUid ≠ "") (hne : toUid ≠ fromUid) (hpos : 0 < amount)
    (hbal : amount ≤ s.wallets fromUid) :
    ∃ s', transferFunds s fromUid toUid amount note base = .ok s' ∧
      s'.wallets fromUid = s.wallets fromUid - amount ∧
      s'.wallets toUid = s.wallets toUid + amount ∧
      (∀ u, u ≠ fromUid → u ≠ toUid → s'.wallets u = s.wallets u) ∧
      s'.ledgers fromUid
        = s.ledgers fromUid ++ [transferOutEntry toUid amount note base] ∧
      s'.ledgers toUid
        = s.ledgers toUid ++ [transferInEntry fromUid amount note base] ∧
      (∀ u, u ≠ fromUid → u ≠ toUid → s'.ledgers u = s.ledgers u) ∧
      s'.rides = s.rides ∧ s'.orders = s.orders := by
  have h1 : ¬(toUid = "" ∨ toUid = fromUid) := by
    intro h; rcases h with h | h <;> [exact hto h; exact hne h]
  have h2 : ¬amount ≤ 0 := not_le.mpr hpos
  have h3 : ¬s.wallets fromUid < amount := not_lt.mpr hbal
  have hfn : fromUid ≠ toUid := fun h => hne h.symm
  simp only [transferFunds, if_neg h1, if_neg h2, if_neg h3]
  refine ⟨_, rfl, ?_, ?_, ?_, ?_, ?_, ?_, rfl, rfl⟩
  · simp [setF, hfn]
  · simp [setF]
  · intro u hu1 hu2; simp [setF, hu1, hu2]
  · simp [setF, hfn]
  · simp [setF, hne]
  · intro u hu1 hu2; simp [setF, hu1, hu2]

/-- State for the C4 witness: alice holds 100 (the base currency), bob 0,
all ledgers empty. -/
def c4St : WState :=
  { wallets := fun u => if u = "alice" then 100 else 0,
    ledgers := fun _ => [], rides := fun _ => none,
    businesses := fun _ => none, driversLive := fun _ => false, orders := [] }

/-- Witness for `transferFunds_ok`: transferring 40 of alice's balance 100
to bob leaves alice at 60, bob at 40, and creates exactly the
`TRANSFER_OUT` / `TRANSFER_IN` pair. -/
theorem transferFunds_ok_witness :
    c4St.wallets "alice" = 100 ∧ (0 : ℚ) < 40 ∧ (40 : ℚ) ≤ c4St.wallets "alice" ∧
    ∃ s', transferFunds c4St "alice" "bob" 40 none "ZAR" = .ok s' ∧
      s'.wallets "alice" = 60 ∧ s'.wallets "bob" = 40 ∧
      s'.ledgers "alice" = [transferOutEntry "bob" 40 none "ZAR"] ∧
      s'.ledgers "bob" = [transferInEntry "alice" 40 none "ZAR"] := by
  refine ⟨rfl, by decide, by show (40 : ℚ) ≤ 100; decide, ?_⟩
  obtain ⟨s', hok, hfrom, hto, _, hlf, hlt, -, -, -⟩ :=
    transferFunds_ok c4St "alice" "bob" 40 none "ZAR"
      (by decide) (by decide) (by decide) (by show (40 : ℚ) ≤ 100; decide)
  refine ⟨s', hok, ?_, ?_, ?_, ?_⟩
  · rw [hfrom]; show (100 : ℚ) - 40 = 60; norm_num
  · rw [hto]; show (0 : ℚ) + 40 = 40; norm_num
  · rw [hlf]; rfl
  · rw [hlt]; rfl

/-- C5: for an eligible ride (not yet settled, owned by the caller, on
trip, with an assigned driver distinct from the rider, a positive fare
within the rider's balance), settlement debits the rider by the full fare
and credits the driver by `fare - platformFeeOf fare feeRate`, where the
platform fee is `Math.round` of the fare times the fee rate clamped to
[0, 0.95]; the `RIDE_PAYMENT` / `RIDE_EARN` entries record the same fee
and payout, and the ride is marked completed/authorized. -/
theorem payDriverOnComplete_settles (s : WState) (riderUid rideId : String)
    (feeRate : ℚ) (base : String) (ride : Ride) (driverId : String)
    (hid : rideId ≠ "") (hr : s.rides rideId = some ride)
    (hps : ride.paymentStatus ≠ some "authorized")
    (hst : ride.status = "on_trip") (hown : ride.userId = riderUid)
    (hdrv : ride.driverId = some driverId) (hnd : driverId ≠ riderUid)
    (hfare : 0 < ride.estimatedFareZAR)
    (hbal : ride.estimatedFareZAR ≤ s.wallets riderUid) :
    ∃ s', payDriverOnComplete s riderUid rideId feeRate base = .ok s' ∧
      s'.wallets riderUid = s.wallets riderUid - ride.estimatedFareZAR ∧
      s'.wallets driverId = s.wallets driverId
        + (ride.estimatedFareZAR - platformFeeOf ride.estimatedFareZAR feeRate) ∧
      (∀ u, u ≠ riderUid → u ≠ driverId → s'.wallets u = s.wallets u) ∧
      s'.ledgers riderUid = s.ledgers riderUid
        ++ [ridePaymentEntry rideId driverId ride.estimatedFareZAR
              (platformFeeOf ride.estimatedFareZAR feeRate)
              (ride.estimatedFareZAR - platformFeeOf ride.estimatedFareZAR feeRate) base] ∧
      s'.ledgers driverId = s.ledgers driverId
        ++ [rideEarnEntry rideId riderUid
              (ride.estimatedFareZAR - platformFeeOf ride.estimatedFareZAR feeRate)
              (platformFeeOf ride.estimatedFareZAR feeRate) base] ∧
      (∀ u, u ≠ riderUid → u ≠ driverId → s'.ledgers u = s.ledgers u) ∧
      s'.rides rideId = some { ride with status := "completed",
                                         paymentStatus := some "authorized" } ∧
      s'.driversLive driverId = false := by
  have hskip : ¬(ride.paymentStatus = some "authorized" ∨ ride.status = "completed") := by
    intro h
    rcases h with h | h
    · exact hps h
    · rw [hst] at h; exact absurd h (by decide)
  have hown' : ¬ride.userId ≠ riderUid := by simpa using hown
  have hst' : ¬ride.status ≠ "on_trip" := by simpa using hst
  have hfare' : ¬ride.estimatedFareZAR ≤ 0 := not_le.mpr hfare
  have hbal' : ¬s.wallets riderUid < ride.estimatedFareZAR := not_lt.mpr hbal
  have hdn : riderUid ≠ driverId := fun h => hnd h.symm
  simp only [payDriverOnComplete, if_neg hid, hr, if_neg hskip, if_neg hown',
    if_neg hst', hdrv, if_neg hfare', if_neg hbal']
  refine ⟨_, rfl, ?_, ?_, ?_, ?_, ?_, ?_, ?_, ?_⟩
  · simp [setF, hdn]
  · simp [setF]
  · intro u hu1 hu2; simp [setF, hu1, hu2]
  · simp [setF, hdn]
  · simp [setF, hnd]
  · intro u hu1 hu2; simp [setF, hu1, hu2]
  · simp [setF]
  · simp [setF]

/-- State for the C5 witness: ride "r1" on trip, owned by "rider" with
driver "driver", fare 100; the rider holds exactly 100, all ledgers are
empty. -/
def c5St : WState :=
  { wallets := fun u => if u = "rider" then 100 else 0,
    ledgers := fun _ => [],
    rides := fun r =>
      if r = "r1" then
        some { userId := "rider", status := "on_trip",
               driverId := some "driver", estimatedFareZAR := 100 }
      else none,
    businesses := fun _ => none, driversLive := fun _ => false, orders := [] }

/-- Witness for `payDriverOnComplete_settles`: fare 100 at fee rate 0.20
yields platform fee 20 and driver payout 80; the rider is debited 100
(balance 0) and the driver credited 80, with the fee and payout recorded
in the entry pair. -/
theorem payDriverOnComplete_settles_witness :
    platformFeeOf 100 (20 / 100) = 20 ∧
    (100 : ℚ) - platformFeeOf 100 (20 / 100) = 80 ∧
    ∃ s', payDriverOnComplete c5St "rider" "r1" (20 / 100) "ZAR" = .ok s' ∧
      s'.wallets "rider" = 0 ∧ s'.wallets "driver" = 80 ∧
      s'.ledgers "rider" = [ridePaymentEntry "r1" "driver" 100 20 80 "ZAR"] ∧
      s'.ledgers "driver" = [rideEarnEntry "r1" "rider" 80 20 "ZAR"] := by
  have hfee : platformFeeOf 100 (20 / 100) = 20 := by
    have : max 0 (min ((95 : ℚ) / 100) (20 / 100)) = 20 / 100 := by
      rw [min_eq_right (by norm_num), max_eq_right (by norm_num)]
    rw [platformFeeOf, this]
    norm_num [jsRound]
  refine ⟨hfee, by rw [hfee]; norm_num, ?_⟩
  obtain ⟨s', hok, hw1, hw2, -, hl1, hl2, -, -, -⟩ :=
    payDriverOnComplete_settles c5St "rider" "r1" (20 / 100) "ZAR"
      { userId := "rider", status := "on_trip",
        driverId := some "driver", estimatedFareZAR := 100 } "driver"
      (by decide) rfl (by decide) rfl rfl rfl (by decide)
      (by show (0 : ℚ) < 100; decide)
      (by show (100 : ℚ) ≤ 100; decide)
  refine ⟨s', hok, ?_, ?_, ?_, ?_⟩
  · rw [hw1]; show (100 : ℚ) - 100 = 0; norm_num
  · rw [hw2, hfee]; show (0 : ℚ) + (100 - 20) = 80; norm_num
  · rw [hl1, hfee]
    show [] ++ [ridePaymentEntry "r1" "driver" 100 20 (100 - 20) "ZAR"]
      = [ridePaymentEntry "r1" "driver" 100 20 80 "ZAR"]
    norm_num [ridePaymentEntry]
  · rw [hl2, hfee]
    show [] ++ [rideEarnEntry "r1" "rider" (100 - 20) 20 "ZAR"]
      = [rideEarnEntry "r1" "rider" 80 20 "ZAR"]
    norm_num [rideEarnEntry]

/-- C10: the already-settled guard runs before the ownership, status and
driver checks, so for ANY caller — the hypothesis does not restrict
`caller` to the ride's owner — settlement of a ride whose status is
"completed" or whose payment status is "authorized" returns success with
the state unchanged, rather than PermissionDenied or FailedPrecondition. -/
theorem payDriverOnComplete_settled_any_caller (s : WState)
    (caller rideId : String) (feeRate : ℚ) (base : String) (ride : Ride)
    (hid : rideId ≠ "") (hr : s.rides rideId = some ride)
    (hsettled : ride.paymentStatus = some "authorized" ∨ ride.status = "completed") :
    payDriverOnComplete s caller rideId feeRate base = .ok s := by
  simp only [payDriverOnComplete, if_neg hid, hr, if_pos hsettled]

/-- State for the C10 witness: ride "r1" belongs to "rider" and is already
completed/authorized. -/
def c10St : WState :=
  { wallets := fun _ => 0, ledgers := fun _ => [],
    rides := fun r =>
      if r = "r1" then
        some { userId := "rider", status := "completed",
               paymentStatus := some "authorized",
               driverId := some "driver", estimatedFareZAR := 100 }
      else none,
    businesses := fun _ => none, driversLive := fun _ => false, orders := [] }

/-- Witness for `payDriverOnComplete_settled_any_caller`: "mallory", who is
not the ride's owner "rider", still gets a success response and no
mutation on the already-settled ride. -/
theorem payDriverOnComplete_settled_any_caller_witness :
    ("mallory" : String) ≠ "rider" ∧
    payDriverOnComplete c10St "mallory" "r1" (20 / 100) "ZAR" = .ok c10St := by
  refine ⟨by decide, ?_⟩
  exact payDriverOnComplete_settled_any_caller c10St "mallory" "r1" (20 / 100) "ZAR"
    { userId := "rider", status := "completed",
      paymentStatus := some "authorized",
      driverId := some "driver", estimatedFareZAR := 100 }
    (by decide) rfl (Or.inl rfl)

/-- Helper: the early-return branch of `payDriverOnComplete` commits
nothing and reports success. -/
theorem payDriver_settled_eq (s : WState) (caller rideId : String)
    (feeRate : ℚ) (base : String) (ride : Ride) (hid : rideId ≠ "")
    (hr : s.rides rideId = some ride)
    (hsettled : ride.paymentStatus = some "authorized" ∨ ride.status = "completed") :
    payDriverOnComplete s caller rideId feeRate base = .ok s := by
  simp only [payDriverOnComplete, if_neg hid, hr, if_pos hsettled]

/-- C6: ride settlement is idempotent.  If a first call commits state `s'`
(in particular after a successful settlement, which marks the ride
completed/authorized), a second call on `s'` again returns success and
commits `s'` unchanged: no balance moves and no second
`RIDE_PAYMENT`/`RIDE_EARN` pair is appended. -/
theorem payDriverOnComplete_idempotent (s s' : WState)
    (riderUid rideId : String) (feeRate : ℚ) (base : String)
    (h : payDriverOnComplete s riderUid rideId feeRate base = .ok s') :
    payDriverOnComplete s' riderUid rideId feeRate base = .ok s' := by
  by_cases hid : rideId = ""
  · simp [payDriverOnComplete, hid] at h
  · cases hride : s.rides rideId with
    | none => simp [payDriverOnComplete, hid, hride] at h
    | some ride =>
      by_cases hset : ride.paymentStatus = some "authorized" ∨ ride.status = "completed"
      · have hs : s = s' := by
          have h' := h
          simp only [payDriverOnComplete, if_neg hid, hride, if_pos hset] at h'
          exact Except.ok.inj h'
        subst hs
        exact payDriver_settled_eq s riderUid rideId feeRate base ride hid hride hset
      · simp only [payDriverOnComplete, if_neg hid, hride, if_neg hset] at h
        split at h
        · exact Except.noConfusion h
        · split at h
          · exact Except.noConfusion h
          · split at h
            · exact Except.noConfusion h
            · split at h
              · exact Except.noConfusion h
              · split at h
                · exact Except.noConfusion h
                · have hs' := Except.ok.inj h
                  subst hs'
                  refine payDriver_settled_eq _ riderUid rideId feeRate base
                    { ride with status := "completed",
                                paymentStatus := some "authorized" }
                    hid ?_ (Or.inl rfl)
                  simp [setF]

/-- The state committed by the first (settling) call of the C6 witness. -/
def c6St : WState :=
  runTx c5St (payDriverOnComplete c5St "rider" "r1" (20 / 100) "ZAR")

/-- Witness for `payDriverOnComplete_idempotent`: settling ride "r1" once
commits `c6St`; the immediate second call returns success with `c6St`
unchanged. -/
theorem payDriverOnComplete_idempotent_witness :
    payDriverOnComplete c5St "rider" "r1" (20 / 100) "ZAR" = .ok c6St ∧
    payDriverOnComplete c6St "rider" "r1" (20 / 100) "ZAR" = .ok c6St := by
  have h : payDriverOnComplete c5St "rider" "r1" (20 / 100) "ZAR" = .ok c6St := rfl
  exact ⟨h, payDriverOnComplete_idempotent c5St c6St "rider" "r1" (20 / 100) "ZAR" h⟩

/-- State for the C1 evaluation: business "biz1" owned by "owner1"; buyer
holds 100; all ledgers empty. -/
def c1St : WState :=
  { wallets := fun u => if u = "buyer" then 100 else 0,
    ledgers := fun _ => [], rides := fun _ => none,
    businesses := fun b => if b = "biz1" then some "owner1" else none,
    driversLive := fun _ => false, orders := [] }

/-- The state committed by the order settlement of the C1 evaluation. -/
def c1Res : WState :=
  runTx c1St (payAndPlaceOrder c1St "buyer" "biz1" ["espresso"] none 40 "ZAR")

/-- C1 evaluated at a concrete input: `payAndPlaceOrder` succeeds, debits
the buyer (100 to 60) and credits the owner (0 to 40) — two wallet-balance
mutations committed in the transaction — yet BOTH ledgers remain empty:
the flow writes the order document but no ledger (transaction-log) entry
for either balance mutation, violating the claimed 1:1 pairing. -/
theorem payAndPlaceOrder_writes_no_ledger_entry :
    (payAndPlaceOrder c1St "buyer" "biz1" ["espresso"] none 40 "ZAR").toOption.isSome
      = true ∧
    c1Res.wallets "buyer" = 60 ∧
    c1Res.wallets "owner1" = 40 ∧
    c1Res.ledgers "buyer" = [] ∧
    c1Res.ledgers "owner1" = [] ∧
    c1Res.orders = [{ businessId := "biz1", ownerId := "owner1",
                      userId := "buyer", items := ["espresso"],
                      deliveryAddress := none, subtotal := 40, total := 40,
                      status := "paid" }] := by
  refine ⟨rfl, ?_, ?_, rfl, rfl, rfl⟩
  · show (100 : ℚ) - 40 = 60
    norm_num
  · show (0 : ℚ) + 40 = 40
    norm_num

/-- Empty state for the C3 counterexample. -/
def c3St : WState :=
  { wallets := fun _ => 0, ledgers := fun _ => [], rides := fun _ => none,
    businesses := fun _ => none, driversLive := fun _ => false, orders := [] }

/-- C3 counterexample: replaying the capture-settlement transaction for
the SAME completed capture (capture id "cap1", credit 50) against an
initially empty wallet credits the wallet twice — the balance ends at 100,
not at most 50 — and appends two `TOP_UP` entries bearing the same capture
id: the claimed existence check/skip does not happen. -/
theorem captureOrderTx_replay_credits_twice :
    (captureOrderTx (captureOrderTx c3St "u" "ord1" (some "cap1") 50 "ZAR" 50 "ZAR")
        "u" "ord1" (some "cap1") 50 "ZAR" 50 "ZAR").wallets "u" = 100 ∧
    (captureOrderTx (captureOrderTx c3St "u" "ord1" (some "cap1") 50 "ZAR" 50 "ZAR")
        "u" "ord1" (some "cap1") 50 "ZAR" 50 "ZAR").wallets "u" ≠ 50 ∧
    (((captureOrderTx (captureOrderTx c3St "u" "ord1" (some "cap1") 50 "ZAR" 50 "ZAR")
        "u" "ord1" (some "cap1") 50 "ZAR" 50 "ZAR").ledgers "u").filter
          (fun e => e.captureId == some "cap1")).length = 2 := by
  refine ⟨?_, ?_, ?_⟩
  · show (0 : ℚ) + 50 + 50 = 100
    norm_num
  · show (0 : ℚ) + 50 + 50 ≠ 50
    norm_num
  · rfl

/-- C3 as amended: the capture-settlement transaction performs NO check
for a prior ledger entry with the same capture id — even when such an
entry already exists in the wallet's ledger, it credits the wallet by the
full amount again and appends one more `TOP_UP` entry carrying that
capture id. -/
theorem captureOrderTx_ignores_existing_capture_entry (s : WState)
    (uid orderId cid : String) (gross credit : ℚ) (gc base : String)
    (e : Entry) (hmem : e ∈ s.ledgers uid) (hcid : e.captureId = some cid) :
    (captureOrderTx s uid orderId (some cid) gross gc credit base).wallets uid
      = s.wallets uid + credit ∧
    (captureOrderTx s uid orderId (some cid) gross gc credit base).ledgers uid
      = s.ledgers uid ++ [topUpEntry orderId (some cid) gross gc credit base] := by
  exact ⟨by simp [captureOrderTx, setF], by simp [captureOrderTx, setF]⟩

/-- State for the C3 witness: the wallet "u" already holds a `TOP_UP`
entry with capture id "cap1". -/
def c3DupSt : WState :=
  { c3St with
    ledgers := fun u =>
      if u = "u" then [topUpEntry "ord1" (some "cap1") 50 "ZAR" 50 "ZAR"]
      else [] }

/-- Witness for `captureOrderTx_ignores_existing_capture_entry`: with an
entry for capture "cap1" already present, the replay still credits 50 and
the ledger grows to two entries. -/
theorem captureOrderTx_ignores_existing_witness :
    topUpEntry "ord1" (some "cap1") 50 "ZAR" 50 "ZAR" ∈ c3DupSt.ledgers "u" ∧
    (topUpEntry "ord1" (some "cap1") 50 "ZAR" 50 "ZAR").captureId = some "cap1" ∧
    (captureOrderTx c3DupSt "u" "ord1" (some "cap1") 50 "ZAR" 50 "ZAR").wallets "u"
      = 50 ∧
    ((captureOrderTx c3DupSt "u" "ord1" (some "cap1") 50 "ZAR" 50 "ZAR").ledgers "u").length
      = 2 := by
  have hmem : topUpEntry "ord1" (some "cap1") 50 "ZAR" 50 "ZAR" ∈ c3DupSt.ledgers "u" := by
    simp [c3DupSt]
  obtain ⟨h1, h2⟩ := captureOrderTx_ignores_existing_capture_entry c3DupSt
    "u" "ord1" "cap1" 50 50 "ZAR" "ZAR"
    (topUpEntry "ord1" (some "cap1") 50 "ZAR" 50 "ZAR") hmem rfl
  refine ⟨hmem, rfl, ?_, ?_⟩
  · rw [h1]
    show (0 : ℚ) + 50 = 50
    norm_num
  · rw [h2]
    rfl

/-- Helper: `startAfterDoc` skips a prefix that does not contain the
cursor id. -/
theorem startAfterDoc_append {α : Type} (l1 l2 : List (String × α))
    (c : String) (hc : c ∉ l1.map Prod.fst) :
    startAfterDoc (l1 ++ l2) c = startAfterDoc l2 c := by
  induction l1 with
  | nil => rfl
  | cons e l1 ih =>
    simp only [List.map_cons, List.mem_cons, not_or] at hc
    simp only [List.cons_append, startAfterDoc, if_neg (Ne.symm hc.1)]
    exact ih hc.2

/-- C9: `getTransactions` clamps the limit to 1..50 with default 20, and
pages by cursor: for any wallet whose (distinct-id) transaction query
yields 25 entries, a call with limit 20 returns the first 20 entries and a
non-null `nextCursor`; a second call passing that cursor returns exactly
the remaining 5 entries and a null `nextCursor`. -/
theorem getTransactions_paging {α : Type} (entries : List (String × α))
    (hlen : entries.length = 25)
    (hnd : (entries.map Prod.fst).Nodup) :
    clampLimit none = 20 ∧
    (∀ l : ℤ, 1 ≤ clampLimit (some l) ∧ clampLimit (some l) ≤ 50) ∧
    (∀ l : ℤ, 1 ≤ l → l ≤ 50 → clampLimit (some l) = l) ∧
    (getTransactions entries (some 20) none).1 = entries.take 20 ∧
    (entries.take 20).length = 20 ∧
    (getTransactions entries (some 20) none).2 ≠ none ∧
    (∀ c, (getTransactions entries (some 20) none).2 = some c →
      getTransactions entries (some 20) (some c) = (entries.drop 20, none)) ∧
    (entries.drop 20).length = 5 := by
  have h19 : 19 < entries.length := by omega
  obtain ⟨e19, he19⟩ : ∃ e, entries.get ⟨19, h19⟩ = e := ⟨_, rfl⟩
  have h20 : (clampLimit (some 20)).toNat = 20 := by decide
  have htk : (entries.take 20).length = 20 := by
    simp [List.length_take, hlen]
  have hg : entries[19] = e19 := by
    rw [← he19, List.get_eq_getElem]
  have hsplit : entries.take 20 = entries.take 19 ++ [e19] := by
    have h := List.take_succ (l := entries) (n := 19)
    rw [List.getElem?_eq_getElem h19, hg] at h
    simpa using h
  have hlast : (entries.take 20).getLast? = some e19 := by
    rw [hsplit]
    exact List.getLast?_concat _
  have hfst : (getTransactions entries (some 20) none).1 = entries.take 20 := by
    simp [getTransactions, h20]
  have hcur : (getTransactions entries (some 20) none).2 = some e19.1 := by
    simp only [getTransactions, h20, List.length_take, hlen]
    rw [if_pos (by omega), hlast]
    rfl
  have hdrop19 : entries.drop 19 = e19 :: entries.drop 20 := by
    have h := List.drop_eq_getElem_cons h19
    rw [hg] at h
    exact h
  have hmem : e19.1 ∈ entries.map Prod.fst := by
    rw [← he19]
    exact List.mem_map_of_mem Prod.fst (List.get_mem entries 19 h19)
  have hnotin : e19.1 ∉ (entries.take 19).map Prod.fst := by
    intro hin
    have hdecomp : entries.map Prod.fst
        = (entries.take 19).map Prod.fst ++ (entries.drop 19).map Prod.fst := by
      rw [← List.map_append, List.take_append_drop]
    rw [hdecomp, List.nodup_append] at hnd
    exact hnd.2.2 hin (by rw [hdrop19]; exact List.mem_cons_self _ _)
  have hstart : startAfterDoc entries e19.1 = entries.drop 20 := by
    conv_lhs => rw [← List.take_append_drop 19 entries]
    rw [startAfterDoc_append _ _ _ hnotin, hdrop19]
    simp [startAfterDoc]
  have hd5 : (entries.drop 20).length = 5 := by
    simp [List.length_drop, hlen]
  refine ⟨by decide, ?_, ?_, hfst, htk, ?_, ?_, hd5⟩
  · intro l
    simp only [clampLimit, Option.getD_some]
    omega
  · intro l h1 h2
    simp only [clampLimit, Option.getD_some]
    omega
  · rw [hcur]
    exact fun h => Option.noConfusion h
  · intro c hc
    rw [hcur] at hc
    have hceq : c = e19.1 := (Option.some.inj hc).symm
    subst hceq
    have htake : (entries.drop 20).take 20 = entries.drop 20 :=
      List.take_of_length_le (by omega)
    simp only [getTransactions, h20, if_pos hmem, hstart, htake, hd5]
    rfl

/-- Concrete 25-entry transaction list (ids distinct, newest first) for
the C9 witness; the payload is the entry's position. -/
def c9Entries : List (String × Nat) :=
  [("t01", 1), ("t02", 2), ("t03", 3), ("t04", 4), ("t05", 5),
   ("t06", 6), ("t07", 7), ("t08", 8), ("t09", 9), ("t10", 10),
   ("t11", 11), ("t12", 12), ("t13", 13), ("t14", 14), ("t15", 15),
   ("t16", 16), ("t17", 17), ("t18", 18), ("t19", 19), ("t20", 20),
   ("t21", 21), ("t22", 22), ("t23", 23), ("t24", 24), ("t25", 25)]

/-- Witness for `getTransactions_paging`: on the 25-entry wallet, limit 20
returns 20 items with cursor "t20", and the second page returns the last 5
entries with a null cursor. -/
theorem getTransactions_paging_witness :
    c9Entries.length = 25 ∧ (c9Entries.map Prod.fst).Nodup ∧
    (getTransactions c9Entries (some 20) none).1.length = 20 ∧
    (getTransactions c9Entries (some 20) none).2 = some "t20" ∧
    getTransactions c9Entries (some 20) (some "t20")
      = (c9Entries.drop 20, none) ∧
    (c9Entries.drop 20).length = 5 := by
  obtain ⟨-, -, -, h4, h5, -, h7, h8⟩ :=
    getTransactions_paging c9Entries (by decide) (by decide)
  have hc : (getTransactions c9Entries (some 20) none).2 = some "t20" := by decide
  exact ⟨by decide, by decide, by rw [h4, h5], hc, h7 "t20" hc, h8⟩

end Dayly
